import Mathlib

/-!
# LEXICON — verification of spec claims against the frontend source

Shallow embedding of the LEXICON frontend code
(`src/frontend/src/services/errorHandler.ts`, `src/frontend/src/App.tsx`,
`src/frontend/src/components/FileUpload.tsx`, the API service module and
the web-application script) together with a spec-modelled pipeline
orchestrator, and proofs/refutations of the frozen claims.
-/

namespace Lexicon

/-! ## JavaScript-style helpers

JS truthiness and the `||` default operator for strings (empty string is
falsy), plus `String.prototype.includes`. -/

/-- JS truthiness of an optional string value: `undefined` and `""` are falsy. -/
def jsTruthy : Option String → Bool
  | some v => v ≠ ""
  | none => false

/-- JS `a || b` on optional strings: keep `a` when truthy, else `b`. -/
def jsOrS (a b : Option String) : Option String :=
  if jsTruthy a then a else b

/-- JS `a || d` where `d` is a string literal default. -/
def jsOrD (a : Option String) (d : String) : String :=
  if jsTruthy a then a.getD "" else d

/-- Whether `pat` occurs at the start of `cs`. -/
def listStartsWith : List Char → List Char → Bool
  | [], _ => true
  | _ :: _, [] => false
  | p :: ps, c :: cs => p == c && listStartsWith ps cs

/-- Whether `pat` occurs as a contiguous subsequence of `cs`. -/
def listContainsSeq (pat : List Char) : List Char → Bool
  | [] => pat.isEmpty
  | c :: cs => listStartsWith pat (c :: cs) || listContainsSeq pat cs

/-- JS `String.prototype.includes pat`: `pat` occurs contiguously in `s`. -/
def strIncludes (s pat : String) : Bool :=
  listContainsSeq pat.toList s.toList

/-- JS `n || d` on an optional number: `undefined` and `0` are falsy. -/
def jsOrN (a : Option Nat) (d : Nat) : Nat :=
  match a with
  | some n => if n = 0 then d else n
  | none => d

/-! ## Error handler (`src/frontend/src/services/errorHandler.ts`)

`ErrorDetails`, `ApiError`, the `ErrorCodes` / `ErrorMessages` tables and
`parseApiError`, embedded field by field. `ErrorMessages` entries omit the
`message` field (the TS type is `Omit<ErrorDetails, 'message'>`). -/

/-- One `ErrorMessages` table entry: `Omit<ErrorDetails, 'message'>`. -/
structure ErrorEntry where
  code : String
  userMessage : String
  recoveryAction : Option String
deriving DecidableEq, Repr

/-- The `ApiError` class: code, message, userMessage, recoveryAction, statusCode.
`message` is optional because the JS constructions can pass `undefined`. -/
structure ApiError where
  code : String
  message : Option String
  userMessage : String
  recoveryAction : Option String
  statusCode : Option Nat
deriving DecidableEq, Repr

/-- `new ApiError({...entry, message}, statusCode)`. -/
def mkApiError (e : ErrorEntry) (msg : Option String) (status : Option Nat) : ApiError :=
  { code := e.code, message := msg, userMessage := e.userMessage,
    recoveryAction := e.recoveryAction, statusCode := status }

/-- The `ErrorCodes` object: the set of defined error-code strings. -/
def errorCodesList : List String :=
  ["INVALID_API_KEY", "MISSING_API_KEY", "EXPIRED_API_KEY",
   "INVALID_DOCUMENT_FORMAT", "DOCUMENT_TOO_LARGE", "DOCUMENT_PROCESSING_FAILED",
   "NO_DOCUMENTS_PROVIDED",
   "INVALID_BRIEF_TYPE", "INVALID_JURISDICTION", "GENERATION_FAILED",
   "GENERATION_TIMEOUT",
   "NETWORK_ERROR", "SERVER_ERROR", "SERVICE_UNAVAILABLE",
   "MISSING_REQUIRED_FIELD", "INVALID_INPUT",
   "RATE_LIMIT_EXCEEDED", "UNKNOWN_ERROR"]

def emInvalidApiKey : ErrorEntry :=
  { code := "INVALID_API_KEY",
    userMessage := "The API key provided is invalid. Please check your configuration.",
    recoveryAction := some "Verify your API keys in the .env file and restart the application." }

def emMissingApiKey : ErrorEntry :=
  { code := "MISSING_API_KEY",
    userMessage := "One or more required API keys are missing.",
    recoveryAction := some "Please configure all required API keys (Anthropic, OpenAI, Google) in your environment." }

def emExpiredApiKey : ErrorEntry :=
  { code := "EXPIRED_API_KEY",
    userMessage := "Your API key has expired.",
    recoveryAction := some "Please renew your API subscription and update the key." }

def emInvalidDocumentFormat : ErrorEntry :=
  { code := "INVALID_DOCUMENT_FORMAT",
    userMessage := "The uploaded document format is not supported.",
    recoveryAction := some "Please upload documents in PDF, DOCX, or TXT format." }

def emDocumentTooLarge : ErrorEntry :=
  { code := "DOCUMENT_TOO_LARGE",
    userMessage := "The uploaded document exceeds the maximum size limit (100MB).",
    recoveryAction := some "Please reduce the file size or split into multiple documents." }

def emDocumentProcessingFailed : ErrorEntry :=
  { code := "DOCUMENT_PROCESSING_FAILED",
    userMessage := "Failed to process the uploaded documents.",
    recoveryAction := some "Please check the document format and try again." }

def emNoDocumentsProvided : ErrorEntry :=
  { code := "NO_DOCUMENTS_PROVIDED",
    userMessage := "No documents were provided for analysis.",
    recoveryAction := some "Please upload at least one document to generate a brief." }

def emInvalidBriefType : ErrorEntry :=
  { code := "INVALID_BRIEF_TYPE",
    userMessage := "The selected brief type is not valid.",
    recoveryAction := some "Please select a valid brief type from the dropdown." }

def emInvalidJurisdiction : ErrorEntry :=
  { code := "INVALID_JURISDICTION",
    userMessage := "The specified jurisdiction is not valid.",
    recoveryAction := some "Please select a valid jurisdiction." }

def emGenerationFailed : ErrorEntry :=
  { code := "GENERATION_FAILED",
    userMessage := "Failed to generate the legal brief.",
    recoveryAction := some "Please try again. If the problem persists, contact support." }

def emGenerationTimeout : ErrorEntry :=
  { code := "GENERATION_TIMEOUT",
    userMessage := "Brief generation timed out due to high complexity.",
    recoveryAction := some "Try reducing the number of documents or simplifying the request." }

def emNetworkError : ErrorEntry :=
  { code := "NETWORK_ERROR",
    userMessage := "Network connection error.",
    recoveryAction := some "Please check your internet connection and try again." }

def emServerError : ErrorEntry :=
  { code := "SERVER_ERROR",
    userMessage := "An internal server error occurred.",
    recoveryAction := some "Please try again later. If the issue persists, contact support." }

def emServiceUnavailable : ErrorEntry :=
  { code := "SERVICE_UNAVAILABLE",
    userMessage := "The service is temporarily unavailable.",
    recoveryAction := some "Please try again in a few minutes." }

def emMissingRequiredField : ErrorEntry :=
  { code := "MISSING_REQUIRED_FIELD",
    userMessage := "Required information is missing.",
    recoveryAction := some "Please fill in all required fields." }

def emInvalidInput : ErrorEntry :=
  { code := "INVALID_INPUT",
    userMessage := "The provided input is invalid.",
    recoveryAction := some "Please check your input and try again." }

def emRateLimitExceeded : ErrorEntry :=
  { code := "RATE_LIMIT_EXCEEDED",
    userMessage := "Too many requests. Please slow down.",
    recoveryAction := some "Wait a few minutes before trying again." }

def emUnknownError : ErrorEntry :=
  { code := "UNKNOWN_ERROR",
    userMessage := "An unexpected error occurred.",
    recoveryAction := some "Please try again. If the issue persists, contact support." }

/-- The `ErrorMessages` record as an association table from error code to
entry, in declaration order. -/
def errorMessagesTable : List (String × ErrorEntry) :=
  [("INVALID_API_KEY", emInvalidApiKey),
   ("MISSING_API_KEY", emMissingApiKey),
   ("EXPIRED_API_KEY", emExpiredApiKey),
   ("INVALID_DOCUMENT_FORMAT", emInvalidDocumentFormat),
   ("DOCUMENT_TOO_LARGE", emDocumentTooLarge),
   ("DOCUMENT_PROCESSING_FAILED", emDocumentProcessingFailed),
   ("NO_DOCUMENTS_PROVIDED", emNoDocumentsProvided),
   ("INVALID_BRIEF_TYPE", emInvalidBriefType),
   ("INVALID_JURISDICTION", emInvalidJurisdiction),
   ("GENERATION_FAILED", emGenerationFailed),
   ("GENERATION_TIMEOUT", emGenerationTimeout),
   ("NETWORK_ERROR", emNetworkError),
   ("SERVER_ERROR", emServerError),
   ("SERVICE_UNAVAILABLE", emServiceUnavailable),
   ("MISSING_REQUIRED_FIELD", emMissingRequiredField),
   ("INVALID_INPUT", emInvalidInput),
   ("RATE_LIMIT_EXCEEDED", emRateLimitExceeded),
   ("UNKNOWN_ERROR", emUnknownError)]

/-- `ErrorMessages[k]`: `some entry` for the eighteen defined keys,
`undefined` (i.e. `none`) for everything else. -/
def ErrorMessages (k : String) : Option ErrorEntry :=
  errorMessagesTable.lookup k

/-- `error.response.data`: the backend response body, with the two fields
`parseApiError` reads. `none` is a `null`/`undefined` body (on which the
unguarded `data.message` read throws); a non-nullish body without these
fields — an HTML error page string, say — reads as `some` with both
fields `none`, since property access on it yields `undefined` without
throwing. -/
structure RespData where
  error_code : Option String
  message : Option String
deriving DecidableEq, Repr

/-- `error.response`: an axios response attached to the error. -/
structure ErrResponse where
  status : Nat
  data : Option RespData
deriving DecidableEq, Repr

/-- An arbitrary (non-nullish) value thrown at the error boundary: the three
properties `parseApiError` reads, each possibly `undefined`. -/
structure ErrObj where
  response : Option ErrResponse
  code : Option String
  message : Option String
deriving DecidableEq, Repr

/-- `data?.message?.includes(pat)` with JS optional chaining. -/
def dataMsgIncludes (data : Option RespData) (pat : String) : Bool :=
  match data with
  | some d => match d.message with
    | some m => strIncludes m pat
    | none => false
  | none => false

/-- `data?.message` with JS optional chaining. -/
def dataMsg (data : Option RespData) : Option String :=
  match data with
  | some d => d.message
  | none => none

/-- A runtime exception escaping `parseApiError` itself (an unguarded
property access on `null`/`undefined`). -/
inductive JsCrash where
  | typeError
deriving DecidableEq, Repr

/-- The `switch (status)` statement of `parseApiError` (with the enclosing
`data` and `error.message` in scope). The 400-status fallback constructs
`message: data.message || 'Bad request'` with an UNGUARDED read of
`data.message`: when `data` is `null`/`undefined` that property access
throws a `TypeError` (a non-nullish primitive body reads as an object with
both fields `undefined` and does not throw). Every other branch reads
`data` only through optional chaining. -/
def statusSwitch (status : Nat) (data : Option RespData) (emsg : Option String) :
    Except JsCrash ApiError :=
  if status = 400 then
    if dataMsgIncludes data "API key" then
      .ok (mkApiError emInvalidApiKey (dataMsg data) (some status))
    else
      match data with
      | none => .error .typeError
      | some d => .ok (mkApiError emInvalidInput (some (jsOrD d.message "Bad request")) (some status))
  else if status = 401 then
    .ok (mkApiError emInvalidApiKey (some "Authentication failed") (some status))
  else if status = 403 then
    .ok (mkApiError emExpiredApiKey (some "Access forbidden") (some status))
  else if status = 413 then
    .ok (mkApiError emDocumentTooLarge (some "Payload too large") (some status))
  else if status = 429 then
    .ok (mkApiError emRateLimitExceeded (some "Rate limit exceeded") (some status))
  else if status = 500 ∨ status = 502 ∨ status = 503 then
    .ok (mkApiError emServerError (some (jsOrD (dataMsg data) "Server error")) (some status))
  else if status = 504 then
    .ok (mkApiError emGenerationTimeout (some "Request timeout") (some status))
  else
    .ok (mkApiError emUnknownError (jsOrS (dataMsg data) emsg) (some status))

/-- The `if (data?.error_code)` sub-branch of `parseApiError`: when the
backend supplied a truthy `error_code` that is a key of `ErrorMessages`,
the resulting `ApiError`; otherwise `none` (fall through to the status
switch). -/
def viaErrorCode (resp : ErrResponse) (emsg : Option String) : Option ApiError :=
  match resp.data with
  | some d =>
    match d.error_code with
    | some ec =>
      if ec ≠ "" then
        match ErrorMessages ec with
        | some entry => some (mkApiError entry (jsOrS d.message emsg) (some resp.status))
        | none => none
      else none
    | none => none
  | none => none

/-- The `if (error.response)` branch of `parseApiError`: first the
backend-supplied `error_code` lookup, then the status-code switch. -/
def respBranch (resp : ErrResponse) (emsg : Option String) : Except JsCrash ApiError :=
  match viaErrorCode resp emsg with
  | some a => .ok a
  | none => statusSwitch resp.status resp.data emsg

/-- The no-`response` tail of `parseApiError`: timeout, network and default
branches (`onLine` models `navigator.onLine`). -/
def noRespBranch (code emsg : Option String) (onLine : Bool) : ApiError :=
  if code == some "ECONNABORTED" || (match emsg with
      | some m => strIncludes m "timeout"
      | none => false) then
    mkApiError emGenerationTimeout (some "Request timed out") none
  else if code == some "ERR_NETWORK" || !onLine then
    mkApiError emNetworkError (some "Network connection lost") none
  else
    mkApiError emUnknownError (some (jsOrD emsg "Unknown error occurred")) none

/-- `parseApiError` on a non-nullish argument: the response branch can
still throw (the 400-status fallback's unguarded `data.message`). -/
def parseApiErrorObj (e : ErrObj) (onLine : Bool) : Except JsCrash ApiError :=
  match e.response with
  | some resp => respBranch resp e.message
  | none => .ok (noRespBranch e.code e.message onLine)

/-- A JavaScript value reaching the `error: any` parameter: `null`,
`undefined`, or a non-nullish value (whose relevant properties are the
`ErrObj` fields). -/
inductive JsErrInput where
  | nullv
  | undef
  | obj (e : ErrObj)
deriving DecidableEq, Repr

/-- `parseApiError` with JS property-access semantics: reading
`error.response` on `null`/`undefined` throws a `TypeError`; a non-nullish
value runs through the branches, which can themselves throw at the
400-status fallback's unguarded `data.message` read. -/
def parseApiError (e : JsErrInput) (onLine : Bool) : Except JsCrash ApiError :=
  match e with
  | .nullv => .error .typeError
  | .undef => .error .typeError
  | .obj o => parseApiErrorObj o onLine

/-! ## Frontend types (`src/frontend/src/types`, `src/unnamed/part_003`) -/

/-- The `BriefType` string-literal union. -/
inductive BriefType where
  | daubert_motion
  | daubert_response
  | frye_motion
  | frye_response
  | motion_in_limine
deriving DecidableEq, Repr

/-- The backend wire value of a `BriefType` (the union's string literal). -/
def BriefType.str : BriefType → String
  | .daubert_motion => "daubert_motion"
  | .daubert_response => "daubert_response"
  | .frye_motion => "frye_motion"
  | .frye_response => "frye_response"
  | .motion_in_limine => "motion_in_limine"

/-- The `status` field of `UploadedFile`. -/
inductive FileStatus where
  | uploading
  | completed
  | error
deriving DecidableEq, Repr

/-- `UploadedFile` (the `file : File` handle is identified by its name,
size and MIME type, which is all the embedded code reads). -/
structure UploadedFile where
  id : String
  name : String
  size : Nat
  type : String
  uploadProgress : Nat
  status : FileStatus
deriving DecidableEq, Repr

/-- The `stage` union of `BriefGenerationStatus`, in declaration order. -/
inductive Stage where
  | uploading
  | anonymization
  | strategic_analysis
  | legal_research
  | scientific_research
  | brief_writing
  | final_review
  | completed
  | error
deriving DecidableEq, Repr

/-- Declaration-order index of a `stage` value, used to compare pipeline
stages. -/
def Stage.idx : Stage → Nat
  | .uploading => 0
  | .anonymization => 1
  | .strategic_analysis => 2
  | .legal_research => 3
  | .scientific_research => 4
  | .brief_writing => 5
  | .final_review => 6
  | .completed => 7
  | .error => 8

/-- `BriefGenerationStatus`: one progress event shown to the UI
(the optional `subTasks` field is never set by the embedded code). -/
structure BriefGenerationStatus where
  stage : Stage
  progress : Nat
  currentAgent : String
  message : String
deriving DecidableEq, Repr

/-- The `metadata` object of `GenerateBriefResponse` as the api service
actually constructs it (`wordCount`, `citations`, `processingTime`). -/
structure BriefMetadata where
  wordCount : Nat
  citations : Nat
  processingTime : Nat
deriving DecidableEq, Repr

/-- `GenerateBriefResponse` as constructed by the api service. -/
structure GenerateBriefResponse where
  brief : String
  metadata : BriefMetadata
deriving DecidableEq, Repr

/-- `GenerateBriefRequest` minus the `onProgress` callback (progress events
are returned explicitly by the embedded run functions). -/
structure GenerateBriefRequest where
  briefType : BriefType
  files : List UploadedFile
  expertName : String
  jurisdiction : String
deriving DecidableEq, Repr

/-! ## The api service (`src/unnamed/part_006`)

`generateBrief` opens a socket, posts `/api/generate-brief`, and settles its
promise either from the POST failure path (`.catch`) or from the
`brief_complete` socket event. We embed the settlement logic as a function
of the terminal input the run receives. -/

/-- The payload of the `brief_complete` socket event
(fields `generateBrief` reads; `full_result` carries a `.length`). -/
structure BriefCompleteData where
  success : Bool
  brief_excerpt : Option String
  full_result : Option String
  error : Option String
deriving DecidableEq, Repr

/-- The terminal input that settles one `generateBrief` promise:
the POST rejected, the POST returned `success: false`, or the POST
succeeded and a `brief_complete` event arrived. -/
inductive RunInput where
  | postFailed (e : ErrObj)
  | postNotSuccess (errMsg : Option String)
  | completed (data : BriefCompleteData)
deriving DecidableEq, Repr

/-- The response value `generateBrief` resolves with for a successful
`brief_complete` payload: the excerpt (or its default), the `full_result`
length (or 1000), the hard-coded `citations: 10`, and the clock reading as
`processingTime`. -/
def resolvedResponse (d : BriefCompleteData) (now : Nat) : GenerateBriefResponse :=
  { brief := jsOrD d.brief_excerpt "Brief generated successfully",
    metadata := { wordCount := jsOrN (d.full_result.map String.length) 1000,
                  citations := 10, processingTime := now } }

/-- The argument object of the failure-path call
`parseApiError({response: {data: {message: data.error}, status: 500}})`. -/
def failedCompleteErrObj (err : Option String) : ErrObj :=
  { response := some { status := 500, data := some { error_code := none, message := err } },
    code := none, message := none }

/-- How one `generateBrief` promise ends: resolved with a response,
rejected with the translated `ApiError`, or never settled because the
callback threw (a `parseApiError` crash happens before `reject` runs). -/
inductive RunOutcome where
  | resolved (b : GenerateBriefResponse)
  | rejected (a : ApiError)
  | unsettled (c : JsCrash)
deriving DecidableEq, Repr

/-- `true` iff the promise settled (resolved or rejected). -/
def RunOutcome.isSettled : RunOutcome → Bool
  | .unsettled _ => false
  | _ => true

/-- A callback of the form `reject(parseApiError(err))`: reject with the
translated error, unless the translation itself throws — then `reject` is
never reached and the promise stays pending. -/
def settleWith (r : Except JsCrash ApiError) : RunOutcome :=
  match r with
  | .ok a => .rejected a
  | .error c => .unsettled c

/-- One `generateBrief` run, given its terminal input: a POST rejection
and a `success: false` response reject through `parseApiError` (which can
itself throw, leaving the promise pending); a delivered `brief_complete`
event resolves on success and rejects through
`parseApiError({response: {data: {message: data.error}, status: 500}})`
on failure. -/
def generateBriefRun (inp : RunInput) (now : Nat) (onLine : Bool) : RunOutcome :=
  match inp with
  | .postFailed e => settleWith (parseApiErrorObj e onLine)
  | .postNotSuccess m =>
      -- `throw new Error(response.data.error || 'Failed to start generation')`
      -- is caught by `.catch` and fed to `parseApiError` as a plain `Error`.
      settleWith (parseApiErrorObj
        { response := none, code := none,
          message := some (jsOrD m "Failed to start generation") } onLine)
  | .completed data =>
      if data.success then
        .resolved (resolvedResponse data now)
      else
        settleWith (parseApiErrorObj (failedCompleteErrObj data.error) onLine)

/-! ## `simulateGenerateBrief` (`src/unnamed/part_006`, lines 115–199) -/

/-- Number of maximal whitespace runs in a character list (`inRun` records
whether the previous character was whitespace). -/
def countWsRuns : List Char → Bool → Nat
  | [], _ => 0
  | c :: rest, inRun =>
    if c.isWhitespace then (if inRun then 0 else 1) + countWsRuns rest true
    else countWsRuns rest false

/-- `s.split(/\s+/).length` in JavaScript: `1` for the empty string, else
one more than the number of maximal whitespace runs. -/
def jsSplitWsLen (s : String) : Nat :=
  if s = "" then 1 else countWsRuns s.toList false + 1

/-- The `sampleBrief` template literal, with its three interpolations of
`briefType` and one of `jurisdiction`. -/
def sampleBrief (briefType jurisdiction : String) : String :=
  "UNITED STATES DISTRICT COURT\n" ++ jurisdiction.toUpper ++ " DISTRICT\n\nCase No. XX-XXXX\n\nPLAINTIFF,\nv.\nDEFENDANT.\n\n"
  ++ (briefType.replace "_" " ").toUpper
  ++ "\n\nNOW COMES the Plaintiff, by and through undersigned counsel, and respectfully submits this "
  ++ briefType.replace "_" " "
  ++ " and states as follows:\n\nI. INTRODUCTION\n\nThis motion seeks to "
  ++ (if strIncludes briefType "daubert" then
        "exclude the testimony of opposing expert witness pursuant to Federal Rule of Evidence 702 and Daubert v. Merrell Dow Pharmaceuticals, Inc."
      else
        "exclude certain evidence from trial")
  ++ ".\n\nII. STATEMENT OF FACTS\n\n[Generated facts based on uploaded documents...]\n\nIII. LEGAL STANDARD\n\n"
  ++ (if strIncludes briefType "daubert" then
        "Under Daubert, trial judges serve as gatekeepers to ensure expert testimony is both relevant and reliable..."
      else
        "The court has broad discretion to exclude evidence under Federal Rules of Evidence...")
  ++ "\n\nIV. ARGUMENT\n\nA. The Expert\u0027s Methodology Lacks Scientific Validity\n   1. No peer review or general acceptance\n   2. Unknown error rate\n   3. Failure to follow standard protocols\n\nB. The Testimony Will Not Assist the Trier of Fact\n   1. Confusing and misleading conclusions\n   2. Prejudicial impact outweighs probative value\n\nV. CONCLUSION\n\nFor the foregoing reasons, Plaintiff respectfully requests that this Court grant this motion and exclude the challenged testimony.\n\nRespectfully submitted,\n\n[Law Firm Name]\n[Attorney Name]\n[Bar Number]\n[Address]\n[Phone]\n[Email]\n\nGenerated by LEXICON v0.1.5\nAI Agents: Claude Opus 4, O3 Pro Deep Research, GPT-4.1, GPT-4.5, Gemini 2.5 Pro"

/-- The fixed `stages` array of `simulateGenerateBrief`: the progress
events the simulated run emits, in emission order. -/
def simulateStages : List BriefGenerationStatus :=
  [{ stage := .uploading, progress := 20, currentAgent := "System",
     message := "Processing uploaded files..." },
   { stage := .strategic_analysis, progress := 35, currentAgent := "Claude Opus 4",
     message := "Analyzing case strategy and identifying key arguments..." },
   { stage := .legal_research, progress := 50, currentAgent := "O3 Pro Deep Research",
     message := "Searching for supporting precedents in legal databases..." },
   { stage := .scientific_research, progress := 65, currentAgent := "GPT-4.1",
     message := "Reviewing medical literature and expert methodologies..." },
   { stage := .brief_writing, progress := 80, currentAgent := "GPT-4.5",
     message := "Drafting comprehensive legal arguments..." },
   { stage := .final_review, progress := 95, currentAgent := "Gemini 2.5 Pro",
     message := "Fact-checking and polishing final brief..." },
   { stage := .completed, progress := 100, currentAgent := "System",
     message := "Brief generation complete!" }]

/-- The value `simulateGenerateBrief` resolves with: the sample brief, its
whitespace-split word count, `citations: 15`, `processingTime: 14000`. -/
def simulateGenerateBriefResponse (briefType jurisdiction : String) : GenerateBriefResponse :=
  let b := sampleBrief briefType jurisdiction
  { brief := b,
    metadata := { wordCount := jsSplitWsLen b, citations := 15, processingTime := 14000 } }

/-- One full `simulateGenerateBrief` run: the emitted progress events (in
order) and the resolved response. -/
def simulateRun (req : GenerateBriefRequest) :
    List BriefGenerationStatus × GenerateBriefResponse :=
  (simulateStages, simulateGenerateBriefResponse req.briefType.str req.jurisdiction)

/-! ## The live progress relay (`src/unnamed/part_006`, lines 50–67 and 96–101) -/

/-- One `progress_update` payload from the server, with the fields the
relay reads (`data.stage`, `data.progress`, `data.agent`). -/
structure ServerProgressUpdate where
  stage : String
  progress : Nat
  agent : Option String
deriving DecidableEq, Repr

/-- The `progressMap` literal: backend stage labels to frontend stages. -/
def progressMap (label : String) : Option Stage :=
  if label = "Uploading documents" then some .uploading
  else if label = "Strategic analysis" then some .strategic_analysis
  else if label = "Legal research" then some .legal_research
  else if label = "Scientific research" then some .scientific_research
  else if label = "Writing brief" then some .brief_writing
  else if label = "Finalizing" then some .final_review
  else none

/-- The `progress_update` listener: `progressMap[data.stage] || 'uploading'`
(unknown labels fall back to `uploading`), the progress passed through,
`data.agent || 'System'`, and the raw label as message. -/
def relayProgressUpdate (u : ServerProgressUpdate) : BriefGenerationStatus :=
  { stage := (progressMap u.stage).getD .uploading,
    progress := u.progress,
    currentAgent := jsOrD u.agent "System",
    message := u.stage }

/-- The progress events one live `generateBrief` run emits through
`onProgress`, for a run in which the POST resolves before the relayed
server events arrive: the post-POST `uploading`/10 event
(`Processing request...`) followed by the relay of each `progress_update`
in arrival order. -/
def liveProgressEvents (serverEvents : List ServerProgressUpdate) :
    List BriefGenerationStatus :=
  { stage := .uploading, progress := 10, currentAgent := "System",
    message := "Processing request..." } :: serverEvents.map relayProgressUpdate

/-! ## `App.tsx` (`src/frontend/src/App.tsx`) — `handleGenerateBrief` guard -/

/-- What one click of the Generate button does before any asynchronous
work: nothing (the early `return`), a `ValidationError`-style rejection
(the behaviour the spec describes — the component never produces this), or
progress-state creation followed by the `generateBrief` request. -/
inductive GenerateOutcome where
  | noop
  | validationError (code : String)
  | started (initial : BriefGenerationStatus)
deriving DecidableEq, Repr

/-- `true` iff the outcome is a `ValidationError` rejection. -/
def GenerateOutcome.isValidationErr : GenerateOutcome → Bool
  | .validationError _ => true
  | _ => false

/-- `true` iff the outcome issues the `generateBrief` request. -/
def GenerateOutcome.issuesRequest : GenerateOutcome → Bool
  | .started _ => true
  | _ => false

/-- `true` iff the outcome creates a `generationStatus` progress state. -/
def GenerateOutcome.createsProgress : GenerateOutcome → Bool
  | .started _ => true
  | _ => false

/-- `handleGenerateBrief` up to its first asynchronous step:
`if (!selectedBriefType || uploadedFiles.length === 0 || !selectedExpert) return;`
then `setGenerationStatus({stage: 'uploading', progress: 0, ...})` and the
`generateBrief(...)` call. A missing expert is the empty string
(falsy), a missing brief type is `none`. -/
def handleGenerateBrief (selectedBriefType : Option BriefType)
    (uploadedFiles : List UploadedFile) (selectedExpert : String) : GenerateOutcome :=
  if selectedBriefType.isNone || uploadedFiles.length == 0 || selectedExpert == "" then
    .noop
  else
    .started { stage := .uploading, progress := 0, currentAgent := "System",
               message := "Uploading case files..." }

/-! ## `FileUpload.tsx` (`src/frontend/src/components/FileUpload.tsx`) -/

/-- The `accept` option passed to `useDropzone`: MIME type to allowed
extensions. -/
def dropzoneAccept : List (String × List String) :=
  [("application/pdf", [".pdf"]),
   ("application/msword", [".doc"]),
   ("application/vnd.openxmlformats-officedocument.wordprocessingml.document", [".docx"]),
   ("text/plain", [".txt"]),
   ("image/*", [".png", ".jpg", ".jpeg", ".gif"])]

/-- The file extensions the upload dropzone accepts. -/
def acceptedExtensions : List String :=
  (dropzoneAccept.map Prod.snd).flatten

/-- Whether a file with the given extension is accepted by the dropzone
(anything else is left out of `acceptedFiles` and silently ignored). -/
def acceptsExtension (ext : String) : Bool :=
  acceptedExtensions.contains ext

/-- The intake formats named by the spec sentence under check: PDF, DOCX,
TXT and legacy word-processor formats (`.doc`, and WordPerfect `.wpd`
per the repository's conversion documentation). Stated from the spec's
words, for comparison against `acceptedExtensions`. -/
def specClaimedExtensions : List String :=
  [".pdf", ".docx", ".txt", ".doc", ".wpd"]

/-! ## Web-application script (`src/unnamed/part_002`)

Socket listeners, brief history and localStorage persistence. -/

/-- The `full_result` metadata object stored into the history
(`expert`, `strategy`, `motion_type`, `length`, `timestamp`). -/
structure HistMeta where
  expert : String
  strategy : String
  motion_type : String
  length : Nat
  timestamp : String
deriving DecidableEq, Repr

/-- One brief-history entry: `{...briefData, date: new Date().toISOString()}`. -/
structure HistEntry where
  meta : HistMeta
  date : String
deriving DecidableEq, Repr

/-- `JSON.stringify` of one history entry, modelled as an explicit
serialisation (injective record rendering). -/
def encodeHistEntry (e : HistEntry) : String :=
  "(" ++ e.meta.expert ++ "|" ++ e.meta.strategy ++ "|" ++ e.meta.motion_type ++ "|"
      ++ toString e.meta.length ++ "|" ++ e.meta.timestamp ++ "|" ++ e.date ++ ")"

/-- `JSON.stringify(briefHistory)`. -/
def encodeHistory (h : List HistEntry) : String :=
  "[" ++ String.intercalate "," (h.map encodeHistEntry) ++ "]"

/-- The payload of the `brief_complete` socket event in the web app. -/
structure WebBriefComplete where
  task_id : Option String
  success : Bool
  filename : String
  brief_excerpt : String
  full_result : HistMeta
  error : Option String
deriving DecidableEq, Repr

/-- The payload of the `processing_complete` socket event. -/
structure WebProcessingComplete where
  task_id : Option String
  success : Bool
  processed : Nat
  failed : Nat
  vectors : Nat
deriving DecidableEq, Repr

/-- The mutable page state touched by the socket listeners: the two tracked
task ids, the two progress bars, the displayed results, the brief history
and the persisted localStorage copy. -/
structure UiState where
  currentBriefTask : Option String
  currentProcessTask : Option String
  briefProgressStage : String
  briefProgressPercent : Nat
  processingStage : String
  processingPercent : Nat
  briefResult : Option WebBriefComplete
  processingResult : Option WebProcessingComplete
  briefHistory : List HistEntry
  lexiconHistoryStorage : Option String
deriving DecidableEq, Repr

/-- `addToHistory(briefData)`: unshift the dated entry, keep only the last
50 items, persist the new list to localStorage. Returns the new in-memory
list and the new persisted string (`nowIso` is `new Date().toISOString()`). -/
def addToHistory (hist : List HistEntry) (briefData : HistMeta) (nowIso : String) :
    List HistEntry × String :=
  let newHist := (({ meta := briefData, date := nowIso } : HistEntry) :: hist).take 50
  (newHist, encodeHistory newHist)

/-- `handleBriefComplete(data)`: on success record the result and add the
`full_result` metadata to the history (with persistence); on failure only
an alert is shown (no state field changes beyond hiding the progress UI,
which we record as the stored result staying `none`). -/
def handleBriefComplete (s : UiState) (data : WebBriefComplete) (nowIso : String) : UiState :=
  if data.success then
    let hs := addToHistory s.briefHistory data.full_result nowIso
    { s with briefResult := some data, briefHistory := hs.1,
             lexiconHistoryStorage := some hs.2 }
  else
    s

/-- `handleProcessingComplete(data)`: on success record the summary (the
DOM work and reloads are external side effects). -/
def handleProcessingComplete (s : UiState) (data : WebProcessingComplete) : UiState :=
  if data.success then { s with processingResult := some data } else s

/-- One socket event as received by `setupSocketListeners`. -/
inductive SocketEvent where
  | briefProgress (task_id : Option String) (stage : String) (progress : Nat)
  | briefComplete (data : WebBriefComplete)
  | processingProgress (task_id : Option String) (stage : String) (progress : Nat)
  | processingComplete (data : WebProcessingComplete)
deriving DecidableEq, Repr

/-- The four socket listeners: each handler runs only when the event's
`task_id` strictly equals the corresponding tracked task id. -/
def dispatchSocket (s : UiState) (e : SocketEvent) (nowIso : String) : UiState :=
  match e with
  | .briefProgress tid stage progress =>
      if tid = s.currentBriefTask then
        { s with briefProgressStage := stage, briefProgressPercent := progress }
      else s
  | .briefComplete data =>
      if data.task_id = s.currentBriefTask then handleBriefComplete s data nowIso else s
  | .processingProgress tid stage progress =>
      if tid = s.currentProcessTask then
        { s with processingStage := stage, processingPercent := progress }
      else s
  | .processingComplete data =>
      if data.task_id = s.currentProcessTask then handleProcessingComplete s data else s

/-- The task id carried by a socket event. -/
def SocketEvent.taskId : SocketEvent → Option String
  | .briefProgress tid _ _ => tid
  | .briefComplete d => d.task_id
  | .processingProgress tid _ _ => tid
  | .processingComplete d => d.task_id

/-- The tracked task id an event is compared against: brief events against
`currentBriefTask`, processing events against `currentProcessTask`. -/
def SocketEvent.trackedId (s : UiState) : SocketEvent → Option String
  | .briefProgress _ _ _ => s.currentBriefTask
  | .briefComplete _ => s.currentBriefTask
  | .processingProgress _ _ _ => s.currentProcessTask
  | .processingComplete _ => s.currentProcessTask

/-! ## Spec-modelled pipeline orchestrator

The backend orchestrator (`run(case) -> Brief`, implemented in
`lexicon_pipeline.py` according to the repository documentation) is not
present under `src/`; only its frontend callers and documentation are.
The definitions below are modelled from the spec. -/

/-- `ResearchResult` — one researcher's output (spec §3): strategy used,
citation list, free-text synthesis. -/
structure ResearchResult where
  strategy : String
  citations : List String
  synthesis : String
deriving DecidableEq, Repr

/-- `Case` — one brief-generation request as the orchestrator sees it
(spec §3): the extracted document text stands in for the uploaded file
set. -/
structure SpecCase where
  documentsText : String
  expertName : String
  strategy : String
deriving DecidableEq, Repr

/-- `Brief` — the assembled output artifact (spec §3): body text, citation
list, contributing agents. -/
structure SpecBrief where
  body : String
  citations : List String
  agents : List String
deriving DecidableEq, Repr

/-- Observable orchestration events of one `run`, in emission order:
issuing and receiving the two stage-3 researcher calls, and entering the
later stages. -/
inductive OrchEvent where
  | issueLegal
  | issueSci
  | recvLegal
  | recvSci
  | enterReview
  | enterDraft
  | enterEdit
deriving DecidableEq, Repr

/-- Modelled from the spec: a stage-tagged pipeline error (spec §7 —
`ExternalServiceError`/`ConcurrencyTimeoutError` surfaced with the failing
researcher identified; a researcher that times out fails its call). -/
inductive StageError where
  | legalResearchFailed (cause : String)
  | sciResearchFailed (cause : String)
deriving DecidableEq, Repr

/-- Modelled from the spec: one stage adapter per agent role (spec §4.2,
`invoke(input) -> StageOutput`); the two researchers are fallible external
calls, the claim under check concerns only their failure behaviour. -/
structure AgentStubs where
  anonymize : SpecCase → String
  legalResearch : String → Except String ResearchResult
  sciResearch : String → Except String ResearchResult
  review : ResearchResult → ResearchResult → String
  draft : String → String
  edit : String → String

/-- The event trace of a run aborted at the stage-3 join: both calls were
issued and awaited, no later stage was entered. -/
def abortedTrace : List OrchEvent :=
  [.issueLegal, .issueSci, .recvLegal, .recvSci]

/-- The event trace of a run that passed the stage-3 join and went through
review, drafting and editing. -/
def fullTrace : List OrchEvent :=
  [.issueLegal, .issueSci, .recvLegal, .recvSci, .enterReview, .enterDraft, .enterEdit]

/-- Modelled from the spec: `run(case) -> Brief` (spec §4.1), absent from
`src/`. Stage 2 anonymizes/summarises; stage 3 issues both researcher
calls before awaiting either and joins on both; stages 4–6 review, draft
and edit. A failure of either researcher aborts the case with a
stage-tagged error before the drafter is entered. Returns the emitted
event trace and the outcome. -/
def runPipeline (a : AgentStubs) (c : SpecCase) :
    List OrchEvent × Except StageError SpecBrief :=
  let summary := a.anonymize c
  -- both calls are issued before either is awaited
  let legalCall := a.legalResearch summary
  let sciCall := a.sciResearch summary
  match legalCall, sciCall with
  | .error e, _ =>
      (abortedTrace, .error (.legalResearchFailed e))
  | .ok _, .error e =>
      (abortedTrace, .error (.sciResearchFailed e))
  | .ok legal, .ok sci =>
      let reviewed := a.review legal sci
      let draftText := a.draft reviewed
      let finalText := a.edit draftText
      (fullTrace,
       .ok { body := finalText,
             citations := legal.citations ++ sci.citations,
             agents := ["Orchestrator", "Legal Researcher", "Scientific Researcher",
                        "Drafter", "Editor"] })

/-! ## Claim statements and concrete sample inputs -/

/-- Claim C1 (amended) as a predicate on one `generateBrief` run: the run
resolves with exactly one brief (and cannot reject or hang), or rejects
with exactly one typed `ApiError` with a defined code and non-empty user
message (and cannot resolve), or — only when the POST rejected with a
400-status response whose body is nullish — the error translation throws
before `reject` and the promise never settles (and no brief is produced);
and a run whose `brief_complete` event reports failure never resolves. -/
def SettlesOnceOrHangs (inp : RunInput) (now : Nat) (onLine : Bool) : Prop :=
  ((∃ b, generateBriefRun inp now onLine = RunOutcome.resolved b ∧
      (∀ a, generateBriefRun inp now onLine ≠ RunOutcome.rejected a) ∧
      (∀ c, generateBriefRun inp now onLine ≠ RunOutcome.unsettled c) ∧
      (∀ b', generateBriefRun inp now onLine = RunOutcome.resolved b' → b' = b)) ∨
   (∃ a, generateBriefRun inp now onLine = RunOutcome.rejected a ∧
      a.code ∈ errorCodesList ∧ a.userMessage ≠ "" ∧
      (∀ b, generateBriefRun inp now onLine ≠ RunOutcome.resolved b) ∧
      (∀ a', generateBriefRun inp now onLine = RunOutcome.rejected a' → a' = a)) ∨
   (generateBriefRun inp now onLine = RunOutcome.unsettled JsCrash.typeError ∧
      (∀ b, generateBriefRun inp now onLine ≠ RunOutcome.resolved b) ∧
      (∃ e resp, inp = RunInput.postFailed e ∧ e.response = some resp ∧
        resp.status = 400 ∧ resp.data = none))) ∧
  (∀ d, inp = RunInput.completed d → d.success = false →
      ∀ b, generateBriefRun inp now onLine ≠ RunOutcome.resolved b)

/-- Claim C2 as a predicate on one orchestrator run: in the emitted trace
both researcher calls are issued before either is received, drafting (when
it happens) starts only after both researcher calls have returned, and a
failed run never enters the drafting stage. -/
def FanOutDisciplined (a : AgentStubs) (c : SpecCase) : Prop :=
  let t := (runPipeline a c).1
  (t.indexOf OrchEvent.issueLegal < t.indexOf OrchEvent.recvLegal ∧
   t.indexOf OrchEvent.issueSci < t.indexOf OrchEvent.recvLegal ∧
   t.indexOf OrchEvent.issueLegal < t.indexOf OrchEvent.recvSci ∧
   t.indexOf OrchEvent.issueSci < t.indexOf OrchEvent.recvSci) ∧
  (OrchEvent.enterDraft ∈ t →
    t.indexOf OrchEvent.recvLegal < t.indexOf OrchEvent.enterDraft ∧
    t.indexOf OrchEvent.recvSci < t.indexOf OrchEvent.enterDraft) ∧
  (∀ er, (runPipeline a c).2 = Except.error er → OrchEvent.enterDraft ∉ t)

/-- Claim C5 (amended) as a predicate: the button handler ignores the
request silently — no `ValidationError`, no `generateBrief` request, no
progress state. -/
def RejectsSilently (bt : Option BriefType) (files : List UploadedFile)
    (expert : String) : Prop :=
  handleGenerateBrief bt files expert = GenerateOutcome.noop ∧
  (handleGenerateBrief bt files expert).isValidationErr = false ∧
  (handleGenerateBrief bt files expert).issuesRequest = false ∧
  (handleGenerateBrief bt files expert).createsProgress = false

/-- Stub adapters echoing fixed outputs at each stage, for instantiating
the pipeline theorems on a concrete run. -/
def stubAgents : AgentStubs :=
  { anonymize := fun c => "SUMMARY: " ++ c.documentsText,
    legalResearch := fun s =>
      Except.ok { strategy := "challenge",
                  citations := ["Daubert v. Merrell Dow Pharmaceuticals, Inc."],
                  synthesis := "legal findings for " ++ s },
    sciResearch := fun s =>
      Except.ok { strategy := "challenge",
                  citations := ["PubMed 12345"],
                  synthesis := "scientific findings for " ++ s },
    review := fun l r => l.synthesis ++ " / " ++ r.synthesis,
    draft := fun t => "DRAFT: " ++ t,
    edit := fun t => "FINAL: " ++ t }

/-- The spec's example Case: expert Dr. A, strategy challenge, one PDF. -/
def specCase0 : SpecCase :=
  { documentsText := "one PDF", expertName := "Dr. A", strategy := "challenge" }

/-- A concrete generation request, used to instantiate the api-service
theorems. -/
def sampleRequest : GenerateBriefRequest :=
  { briefType := .daubert_motion,
    files := [{ id := "f1", name := "records.pdf", size := 2048,
                type := "application/pdf", uploadProgress := 100, status := .completed }],
    expertName := "Dr. A",
    jurisdiction := "Federal" }

/-- A concrete page state tracking brief task `task-1` and processing task
`task-2`. -/
def sampleUiState : UiState :=
  { currentBriefTask := some "task-1",
    currentProcessTask := some "task-2",
    briefProgressStage := "Initializing",
    briefProgressPercent := 0,
    processingStage := "",
    processingPercent := 0,
    briefResult := none,
    processingResult := none,
    briefHistory := [],
    lexiconHistoryStorage := none }

/-! ## Helper lemmas: every `parseApiError` branch yields a defined code
and a non-empty user message -/

theorem mkApiError_valid (e : ErrorEntry) (msg : Option String) (status : Option Nat)
    (h1 : e.code ∈ errorCodesList) (h2 : e.userMessage ≠ "") :
    (mkApiError e msg status).code ∈ errorCodesList ∧
    (mkApiError e msg status).userMessage ≠ "" :=
  ⟨h1, h2⟩

theorem lookup_entry_valid (l : List (String × ErrorEntry))
    (hl : ∀ p ∈ l, p.2.code ∈ errorCodesList ∧ p.2.userMessage ≠ "")
    (k : String) (d : ErrorEntry) (h : l.lookup k = some d) :
    d.code ∈ errorCodesList ∧ d.userMessage ≠ "" := by
  induction l with
  | nil => exact Option.noConfusion h
  | cons p t ih =>
    obtain ⟨pk, pv⟩ := p
    simp only [List.lookup] at h
    split at h
    · injection h with h2
      subst h2
      exact hl (pk, pv) (List.mem_cons_self _ _)
    · exact ih (fun q hq => hl q (List.mem_cons_of_mem _ hq)) h

theorem errorMessagesTable_valid :
    ∀ p ∈ errorMessagesTable, p.2.code ∈ errorCodesList ∧ p.2.userMessage ≠ "" := by
  intro p hp
  fin_cases hp <;> simp [errorCodesList, emInvalidApiKey, emMissingApiKey, emExpiredApiKey, emInvalidDocumentFormat, emDocumentTooLarge, emDocumentProcessingFailed, emNoDocumentsProvided, emInvalidBriefType, emInvalidJurisdiction, emGenerationFailed, emGenerationTimeout, emNetworkError, emServerError, emServiceUnavailable, emMissingRequiredField, emInvalidInput, emRateLimitExceeded, emUnknownError]

theorem errorMessages_entry_valid (k : String) (d : ErrorEntry)
    (h : ErrorMessages k = some d) :
    d.code ∈ errorCodesList ∧ d.userMessage ≠ "" :=
  lookup_entry_valid errorMessagesTable errorMessagesTable_valid k d h

theorem statusSwitch_spec (status : Nat) (data : Option RespData) (emsg : Option String) :
    (∃ a, statusSwitch status data emsg = Except.ok a ∧
      a.code ∈ errorCodesList ∧ a.userMessage ≠ "") ∨
    (statusSwitch status data emsg = Except.error JsCrash.typeError ∧
      status = 400 ∧ data = none) := by
  unfold statusSwitch
  split_ifs with h400 hkey
  · exact Or.inl ⟨_, rfl, mkApiError_valid _ _ _ (by simp [errorCodesList, emInvalidApiKey, emMissingApiKey, emExpiredApiKey, emInvalidDocumentFormat, emDocumentTooLarge, emDocumentProcessingFailed, emNoDocumentsProvided, emInvalidBriefType, emInvalidJurisdiction, emGenerationFailed, emGenerationTimeout, emNetworkError, emServerError, emServiceUnavailable, emMissingRequiredField, emInvalidInput, emRateLimitExceeded, emUnknownError]) (by simp [errorCodesList, emInvalidApiKey, emMissingApiKey, emExpiredApiKey, emInvalidDocumentFormat, emDocumentTooLarge, emDocumentProcessingFailed, emNoDocumentsProvided, emInvalidBriefType, emInvalidJurisdiction, emGenerationFailed, emGenerationTimeout, emNetworkError, emServerError, emServiceUnavailable, emMissingRequiredField, emInvalidInput, emRateLimitExceeded, emUnknownError])⟩
  · rcases data with _ | d
    · exact Or.inr ⟨rfl, h400, rfl⟩
    · exact Or.inl ⟨_, rfl, mkApiError_valid _ _ _ (by simp [errorCodesList, emInvalidApiKey, emMissingApiKey, emExpiredApiKey, emInvalidDocumentFormat, emDocumentTooLarge, emDocumentProcessingFailed, emNoDocumentsProvided, emInvalidBriefType, emInvalidJurisdiction, emGenerationFailed, emGenerationTimeout, emNetworkError, emServerError, emServiceUnavailable, emMissingRequiredField, emInvalidInput, emRateLimitExceeded, emUnknownError]) (by simp [errorCodesList, emInvalidApiKey, emMissingApiKey, emExpiredApiKey, emInvalidDocumentFormat, emDocumentTooLarge, emDocumentProcessingFailed, emNoDocumentsProvided, emInvalidBriefType, emInvalidJurisdiction, emGenerationFailed, emGenerationTimeout, emNetworkError, emServerError, emServiceUnavailable, emMissingRequiredField, emInvalidInput, emRateLimitExceeded, emUnknownError])⟩
  all_goals
    exact Or.inl ⟨_, rfl, mkApiError_valid _ _ _ (by simp [errorCodesList, emInvalidApiKey, emMissingApiKey, emExpiredApiKey, emInvalidDocumentFormat, emDocumentTooLarge, emDocumentProcessingFailed, emNoDocumentsProvided, emInvalidBriefType, emInvalidJurisdiction, emGenerationFailed, emGenerationTimeout, emNetworkError, emServerError, emServiceUnavailable, emMissingRequiredField, emInvalidInput, emRateLimitExceeded, emUnknownError]) (by simp [errorCodesList, emInvalidApiKey, emMissingApiKey, emExpiredApiKey, emInvalidDocumentFormat, emDocumentTooLarge, emDocumentProcessingFailed, emNoDocumentsProvided, emInvalidBriefType, emInvalidJurisdiction, emGenerationFailed, emGenerationTimeout, emNetworkError, emServerError, emServiceUnavailable, emMissingRequiredField, emInvalidInput, emRateLimitExceeded, emUnknownError])⟩

theorem noRespBranch_valid (code emsg : Option String) (onLine : Bool) :
    (noRespBranch code emsg onLine).code ∈ errorCodesList ∧
    (noRespBranch code emsg onLine).userMessage ≠ "" := by
  unfold noRespBranch
  split_ifs <;>
    exact mkApiError_valid _ _ _ (by simp [errorCodesList, emInvalidApiKey, emMissingApiKey, emExpiredApiKey, emInvalidDocumentFormat, emDocumentTooLarge, emDocumentProcessingFailed, emNoDocumentsProvided, emInvalidBriefType, emInvalidJurisdiction, emGenerationFailed, emGenerationTimeout, emNetworkError, emServerError, emServiceUnavailable, emMissingRequiredField, emInvalidInput, emRateLimitExceeded, emUnknownError]) (by simp [errorCodesList, emInvalidApiKey, emMissingApiKey, emExpiredApiKey, emInvalidDocumentFormat, emDocumentTooLarge, emDocumentProcessingFailed, emNoDocumentsProvided, emInvalidBriefType, emInvalidJurisdiction, emGenerationFailed, emGenerationTimeout, emNetworkError, emServerError, emServiceUnavailable, emMissingRequiredField, emInvalidInput, emRateLimitExceeded, emUnknownError])

theorem viaErrorCode_valid (resp : ErrResponse) (emsg : Option String) (a : ApiError)
    (h : viaErrorCode resp emsg = some a) :
    a.code ∈ errorCodesList ∧ a.userMessage ≠ "" := by
  unfold viaErrorCode at h
  split at h
  · split at h
    · split_ifs at h
      split at h
      · rename_i entry hem
        injection h with h2
        subst h2
        exact mkApiError_valid _ _ _ (errorMessages_entry_valid _ entry hem).1
          (errorMessages_entry_valid _ entry hem).2
      · exact Option.noConfusion h
    · exact Option.noConfusion h
  · exact Option.noConfusion h

theorem respBranch_spec (resp : ErrResponse) (emsg : Option String) :
    (∃ a, respBranch resp emsg = Except.ok a ∧
      a.code ∈ errorCodesList ∧ a.userMessage ≠ "") ∨
    (respBranch resp emsg = Except.error JsCrash.typeError ∧
      resp.status = 400 ∧ resp.data = none) := by
  unfold respBranch
  rcases hv : viaErrorCode resp emsg with _ | a
  · exact statusSwitch_spec resp.status resp.data emsg
  · exact Or.inl ⟨a, rfl, viaErrorCode_valid resp emsg a hv⟩

theorem parseApiErrorObj_spec (e : ErrObj) (onLine : Bool) :
    (∃ a, parseApiErrorObj e onLine = Except.ok a ∧
      a.code ∈ errorCodesList ∧ a.userMessage ≠ "") ∨
    (parseApiErrorObj e onLine = Except.error JsCrash.typeError ∧
      ∃ resp, e.response = some resp ∧ resp.status = 400 ∧ resp.data = none) := by
  unfold parseApiErrorObj
  rcases hr : e.response with _ | resp
  · exact Or.inl ⟨_, rfl, noRespBranch_valid e.code e.message onLine⟩
  · rcases respBranch_spec resp e.message with ⟨a, ha, hval⟩ | ⟨hc, hst, hd⟩
    · exact Or.inl ⟨a, ha, hval⟩
    · exact Or.inr ⟨hc, resp, rfl, hst, hd⟩

theorem parseApiErrorObj_crashes_on_400_nullish (e : ErrObj) (onLine : Bool)
    (resp : ErrResponse) (hr : e.response = some resp) (hst : resp.status = 400)
    (hd : resp.data = none) :
    parseApiErrorObj e onLine = Except.error JsCrash.typeError := by
  obtain ⟨r, c, m⟩ := e
  obtain ⟨st, data⟩ := resp
  simp only at hr hst hd
  subst hr
  subst hst
  subst hd
  rfl

/-! ## Claim C8 — `parseApiError` totality -/

/-- Claim C8 counterexample: `parseApiError(null)` does not return an
`ApiError` — the property access `error.response` throws a `TypeError`, so
the claim "for every input value ... it never throws" is false at the
input `null`. -/
theorem parseApiError_throws_on_null :
    parseApiError JsErrInput.nullv true = Except.error JsCrash.typeError :=
  rfl

/-- Claim C8 (amended): on every non-nullish input value, `parseApiError`
either returns an `ApiError` whose code is one of the defined `ErrorCodes`
with a non-empty `userMessage`, or throws a `TypeError`; and it throws
exactly when the input carries a response with status 400 and a nullish
body (the unguarded `data.message` read in the 400 fallback). -/
theorem parseApiError_total_except_400_nullish (e : ErrObj) (onLine : Bool) :
    ((∃ a, parseApiError (JsErrInput.obj e) onLine = Except.ok a ∧
        a.code ∈ errorCodesList ∧ a.userMessage ≠ "") ∨
      parseApiError (JsErrInput.obj e) onLine = Except.error JsCrash.typeError) ∧
    (parseApiError (JsErrInput.obj e) onLine = Except.error JsCrash.typeError ↔
      ∃ resp, e.response = some resp ∧ resp.status = 400 ∧ resp.data = none) := by
  constructor
  · rcases parseApiErrorObj_spec e onLine with ⟨a, ha, hval⟩ | ⟨hc, _⟩
    · exact Or.inl ⟨a, ha, hval⟩
    · exact Or.inr hc
  · constructor
    · intro hc
      rcases parseApiErrorObj_spec e onLine with ⟨a, ha, _⟩ | ⟨_, hcond⟩
      · rw [show parseApiError (JsErrInput.obj e) onLine = parseApiErrorObj e onLine
            from rfl, ha] at hc
        exact absurd hc (by simp)
      · exact hcond
    · intro ⟨resp, hr, hst, hd⟩
      exact parseApiErrorObj_crashes_on_400_nullish e onLine resp hr hst hd

/-- Witness for the amended C8 at a concrete rate-limited axios error. -/
theorem parseApiError_total_except_400_nullish_witness :
    ((∃ a, parseApiError
        (JsErrInput.obj
          { response := some { status := 429, data := none }, code := none,
            message := none }) true = Except.ok a ∧
        a.code ∈ errorCodesList ∧ a.userMessage ≠ "") ∨
      parseApiError
        (JsErrInput.obj
          { response := some { status := 429, data := none }, code := none,
            message := none }) true = Except.error JsCrash.typeError) ∧
    (parseApiError
        (JsErrInput.obj
          { response := some { status := 429, data := none }, code := none,
            message := none }) true = Except.error JsCrash.typeError ↔
      ∃ resp, ({ response := some { status := 429, data := none }, code := none,
                 message := none } : ErrObj).response = some resp ∧
        resp.status = 400 ∧ resp.data = none) :=
  parseApiError_total_except_400_nullish _ true

/-! ## Claim C1 — settlement of one `generateBrief` run -/

/-- Claim C1 counterexample: when the POST rejects with a 400 response
whose body is nullish, the `.catch` callback's `parseApiError` call throws
before `reject` runs, so the run neither resolves with a Brief nor rejects
with a typed error — the promise never settles. -/
theorem generateBrief_hangs_on_400_nullish_data :
    generateBriefRun
      (RunInput.postFailed
        { response := some { status := 400, data := none },
          code := none, message := none }) 0 true
      = RunOutcome.unsettled JsCrash.typeError ∧
    (generateBriefRun
      (RunInput.postFailed
        { response := some { status := 400, data := none },
          code := none, message := none }) 0 true).isSettled = false :=
  ⟨rfl, rfl⟩

/-- Claim C1 (amended): every `generateBrief` run settles at most once —
it resolves with exactly one Brief, or rejects with exactly one typed
`ApiError` whose code is a defined `ErrorCode`, or (only when the POST
rejected with a 400-status response carrying a nullish body) the error
translation itself throws and the promise never settles; a run whose
`brief_complete` event reports failure never resolves with a Brief. -/
theorem generateBrief_settles_once_or_hangs (inp : RunInput) (now : Nat)
    (onLine : Bool) : SettlesOnceOrHangs inp now onLine := by
  unfold SettlesOnceOrHangs
  rcases inp with e | m | d
  · rcases parseApiErrorObj_spec e onLine with ⟨a, ha, hc, hu⟩ | ⟨hcr, resp, hr, hst, hd⟩
    · have hrun : generateBriefRun (RunInput.postFailed e) now onLine =
          RunOutcome.rejected a := by
        simp [generateBriefRun, settleWith, ha]
      refine ⟨Or.inr (Or.inl ⟨a, hrun, hc, hu, ?_, ?_⟩), ?_⟩
      · intro b hb
        rw [hrun] at hb
        exact RunOutcome.noConfusion hb
      · intro a' ha'
        rw [hrun] at ha'
        injection ha' with h2
        exact h2.symm
      · intro d hd
        exact RunInput.noConfusion hd
    · have hrun : generateBriefRun (RunInput.postFailed e) now onLine =
          RunOutcome.unsettled JsCrash.typeError := by
        simp [generateBriefRun, settleWith, hcr]
      refine ⟨Or.inr (Or.inr ⟨hrun, ?_, e, resp, rfl, hr, hst, hd⟩), ?_⟩
      · intro b hb
        rw [hrun] at hb
        exact RunOutcome.noConfusion hb
      · intro d hd
        exact RunInput.noConfusion hd
  · have hrun : generateBriefRun (RunInput.postNotSuccess m) now onLine =
        RunOutcome.rejected
          (noRespBranch none (some (jsOrD m "Failed to start generation")) onLine) := rfl
    have hval := noRespBranch_valid none (some (jsOrD m "Failed to start generation")) onLine
    refine ⟨Or.inr (Or.inl ⟨_, hrun, hval.1, hval.2, ?_, ?_⟩), ?_⟩
    · intro b hb
      rw [hrun] at hb
      exact RunOutcome.noConfusion hb
    · intro a' ha'
      rw [hrun] at ha'
      injection ha' with h2
      exact h2.symm
    · intro d hd
      exact RunInput.noConfusion hd
  · by_cases hs : d.success
    · have hrun : generateBriefRun (RunInput.completed d) now onLine =
          RunOutcome.resolved (resolvedResponse d now) := by
        simp [generateBriefRun, hs]
      refine ⟨Or.inl ⟨resolvedResponse d now, hrun, ?_, ?_, ?_⟩, ?_⟩
      · intro a ha
        rw [hrun] at ha
        exact RunOutcome.noConfusion ha
      · intro c hc
        rw [hrun] at hc
        exact RunOutcome.noConfusion hc
      · intro b' hb'
        rw [hrun] at hb'
        injection hb' with h2
        exact h2.symm
      · intro d' hd hfalse
        injection hd with hd2
        subst hd2
        rw [hfalse] at hs
        exact absurd hs (by decide)
    · rw [Bool.not_eq_true] at hs
      rcases parseApiErrorObj_spec (failedCompleteErrObj d.error) onLine with
        ⟨a, ha, hc, hu⟩ | ⟨_, resp, hr, hst, _⟩
      · have hrun : generateBriefRun (RunInput.completed d) now onLine =
            RunOutcome.rejected a := by
          simp [generateBriefRun, settleWith, hs, ha]
        refine ⟨Or.inr (Or.inl ⟨a, hrun, hc, hu, ?_, ?_⟩), ?_⟩
        · intro b hb
          rw [hrun] at hb
          exact RunOutcome.noConfusion hb
        · intro a' ha'
          rw [hrun] at ha'
          injection ha' with h2
          exact h2.symm
        · intro d' hd hfalse b hb
          rw [hrun] at hb
          exact RunOutcome.noConfusion hb
      · exfalso
        have h5 : (failedCompleteErrObj d.error).response =
            some { status := 500, data := some { error_code := none, message := d.error } } := rfl
        rw [h5] at hr
        injection hr with h6
        rw [← h6] at hst
        simp at hst

/-- Witness for the amended C1 at a concrete successfully completed run. -/
theorem generateBrief_settles_once_or_hangs_witness :
    SettlesOnceOrHangs
      (RunInput.completed
        { success := true, brief_excerpt := some "BRIEF TEXT",
          full_result := some "the full generated brief", error := none })
      1234 true :=
  generateBrief_settles_once_or_hangs _ _ _

/-! ## Claim C2 — stage-3 fan-out discipline (spec-modelled orchestrator) -/

/-- Claim C2: in every orchestrator run, both researcher calls are issued
before either is awaited, drafting starts only after both researcher calls
have returned, and a run in which a researcher fails never reaches the
drafting stage. -/
theorem orchestrator_fanout_disciplined (a : AgentStubs) (c : SpecCase) :
    FanOutDisciplined a c := by
  simp only [FanOutDisciplined, runPipeline]
  generalize a.legalResearch (a.anonymize c) = lc
  generalize a.sciResearch (a.anonymize c) = sc
  rcases lc with e | legal <;> rcases sc with e2 | sci <;> dsimp only
  · exact ⟨by decide, by decide, fun er h => by decide⟩
  · exact ⟨by decide, by decide, fun er h => by decide⟩
  · exact ⟨by decide, by decide, fun er h => by decide⟩
  · exact ⟨by decide, by decide, fun er h => Except.noConfusion h⟩

/-- Witness for C2 at the concrete stub adapters and example Case. -/
theorem orchestrator_fanout_disciplined_witness :
    FanOutDisciplined stubAgents specCase0 :=
  orchestrator_fanout_disciplined stubAgents specCase0

/-! ## Claim C3 — citation count is not the researcher sum -/

/-- Claim C3 counterexample: running the stubbed generation for the
concrete example request, the brief metadata's citation count is not the
sum of the two stub researchers' citation counts — with both stub citation
lists empty the sum is 0 but the produced count is the hard-coded 15. -/
theorem citations_not_researcher_sum :
    ¬ ((simulateRun sampleRequest).2.metadata.citations =
        ([] : List String).length + ([] : List String).length) := by
  intro h
  simp [simulateRun, simulateGenerateBriefResponse] at h

/-- Claim C3 (amended): the citation count in the produced brief metadata
is a hard-coded constant, independent of any researcher output — 15 for
the simulated run and 10 for every brief resolved by `generateBrief`. -/
theorem citations_hard_coded (req : GenerateBriefRequest) (d : BriefCompleteData)
    (now : Nat) (onLine : Bool) (h : d.success = true) :
    (simulateRun req).2.metadata.citations = 15 ∧
    ∃ b, generateBriefRun (RunInput.completed d) now onLine = RunOutcome.resolved b ∧
      b.metadata.citations = 10 := by
  refine ⟨rfl, ⟨resolvedResponse d now, ?_, rfl⟩⟩
  simp [generateBriefRun, h]

/-- Witness for the amended C3 at a concrete successful completion. -/
theorem citations_hard_coded_witness :
    ({ success := true, brief_excerpt := some "BRIEF", full_result := some "full",
       error := none } : BriefCompleteData).success = true ∧
    ((simulateRun sampleRequest).2.metadata.citations = 15 ∧
      ∃ b, generateBriefRun
          (RunInput.completed
            { success := true, brief_excerpt := some "BRIEF",
              full_result := some "full", error := none }) 99 true
          = RunOutcome.resolved b ∧
        b.metadata.citations = 10) :=
  ⟨rfl, citations_hard_coded sampleRequest _ 99 true rfl⟩

/-! ## Claim C4 — progress events ordered -/

/-- Claim C4 counterexample: the live relay does not emit every run in
strictly increasing stage order — after the post-POST `uploading`/10 event,
a relayed `progress_update` carrying the backend's own documented first
label `Uploading documents` maps to the `uploading` stage again, so the
stage sequence repeats index 0 and is not strictly increasing. -/
theorem live_progress_repeats_uploading_stage :
    ¬ ((liveProgressEvents
        [{ stage := "Uploading documents", progress := 20, agent := some "System" }]).map
          fun st => st.stage.idx).Pairwise (· < ·) := by
  decide

/-- Claim C4 (amended): every simulated run of a Case emits its progress
events in strictly increasing stage order with non-decreasing progress
percentages, one event per completed stage (seven distinct stages); the
live path relays server events unchecked and additionally emits its own
`uploading`/10 event, so the property is not guaranteed for it. -/
theorem simulate_progress_events_ordered (req : GenerateBriefRequest) :
    ((simulateRun req).1.map fun st => st.stage.idx).Pairwise (· < ·) ∧
    ((simulateRun req).1.map fun st => st.progress).Pairwise (· ≤ ·) ∧
    ((simulateRun req).1.map fun st => st.stage).Nodup ∧
    (simulateRun req).1.length = 7 := by
  have h1 : (simulateRun req).1 = simulateStages := rfl
  rw [h1]
  refine ⟨?_, ?_, ?_, rfl⟩ <;> decide

/-! ## Claim C5 — validation guard behaviour -/

/-- Claim C5 counterexample: with an empty document set (and an expert
selected), the Generate handler does not reject with a `ValidationError`
— it silently does nothing. -/
theorem empty_docs_not_validation_error :
    handleGenerateBrief (some BriefType.daubert_motion) [] "Dr. A" =
      GenerateOutcome.noop ∧
    (handleGenerateBrief (some BriefType.daubert_motion) [] "Dr. A").isValidationErr
      = false := by
  exact ⟨rfl, rfl⟩

/-- Claim C5 (amended): if the expert name is missing or the uploaded
document set is empty, the Generate handler returns before doing anything:
no `ValidationError` object is created, no generation request is issued,
and no progress state is created. -/
theorem missing_fields_silently_ignored (bt : Option BriefType)
    (files : List UploadedFile) (expert : String)
    (h : expert = "" ∨ files = []) :
    RejectsSilently bt files expert := by
  unfold RejectsSilently handleGenerateBrief
  rcases h with h | h <;> subst h <;>
    simp [GenerateOutcome.isValidationErr, GenerateOutcome.issuesRequest,
      GenerateOutcome.createsProgress]

/-- Witness for the amended C5 at a concrete missing-expert input. -/
theorem missing_fields_silently_ignored_witness :
    (("" : String) = "" ∨ sampleRequest.files = []) ∧
    RejectsSilently (some BriefType.daubert_motion) sampleRequest.files "" :=
  ⟨Or.inl rfl, missing_fields_silently_ignored _ _ _ (Or.inl rfl)⟩

/-! ## Claim C6 — determinism of the stubbed run -/

/-- Claim C6: the stubbed generation run is a pure function of the
request — re-running the same Case yields identical emitted stage events
and an identical response. -/
theorem simulate_run_deterministic (r1 r2 : GenerateBriefRequest) (h : r1 = r2) :
    simulateRun r1 = simulateRun r2 := by
  rw [h]

/-- Witness for C6 at the concrete sample request. -/
theorem simulate_run_deterministic_witness :
    sampleRequest = sampleRequest ∧
    simulateRun sampleRequest = simulateRun sampleRequest :=
  ⟨rfl, simulate_run_deterministic sampleRequest sampleRequest rfl⟩

/-! ## Claim C7 — accepted intake formats -/

/-- Claim C7 counterexample: the dropzone accepts `.png` image files,
which are outside the spec's "exactly PDF, DOCX, TXT and legacy
word-processor formats" set, and does not accept WordPerfect `.wpd`
files, which that set includes. -/
theorem accepted_formats_differ_from_spec :
    acceptsExtension ".png" = true ∧
    (".png" ∈ specClaimedExtensions → False) ∧
    acceptsExtension ".wpd" = false ∧
    ".wpd" ∈ specClaimedExtensions := by
  refine ⟨rfl, ?_, rfl, ?_⟩ <;> decide

/-- Claim C7 (amended): the upload dropzone accepts exactly the
extensions `.pdf`, `.doc`, `.docx`, `.txt`, `.png`, `.jpg`, `.jpeg` and
`.gif`; a file of any other type is left out of the accepted set (it is
silently ignored — no `ValidationError` is raised by the component). -/
theorem dropzone_accepted_extensions (ext : String) :
    acceptsExtension ext = true ↔
      ext ∈ [".pdf", ".doc", ".docx", ".txt", ".png", ".jpg", ".jpeg", ".gif"] := by
  unfold acceptsExtension acceptedExtensions dropzoneAccept
  simp

/-! ## Claim C9 — socket events for another task leave the UI unchanged -/

/-- Claim C9: a socket event (`brief_progress`, `brief_complete`,
`processing_progress`, `processing_complete`) whose `task_id` differs from
the tracked task id for its kind leaves the page state entirely
unchanged. -/
theorem socket_event_other_task_no_effect (s : UiState) (e : SocketEvent)
    (nowIso : String) (h : e.taskId ≠ e.trackedId s) :
    dispatchSocket s e nowIso = s := by
  cases e <;>
    simp only [SocketEvent.taskId, SocketEvent.trackedId] at h <;>
      simp [dispatchSocket, h]

/-- Witness for C9: a `brief_progress` event for a different task id
leaves the concrete page state unchanged. -/
theorem socket_event_other_task_no_effect_witness :
    (SocketEvent.briefProgress (some "task-42") "Legal research" 50).taskId ≠
      (SocketEvent.briefProgress (some "task-42") "Legal research" 50).trackedId
        sampleUiState ∧
    dispatchSocket sampleUiState
      (SocketEvent.briefProgress (some "task-42") "Legal research" 50) "2025-07-22" =
      sampleUiState :=
  ⟨by decide, socket_event_other_task_no_effect _ _ _ (by decide)⟩

/-! ## Claim C10 — history bound, order and persistence -/

/-- Claim C10: after `addToHistory`, the history holds at most 50
entries, the new entry is first, the previously retained entries keep
their relative order (the tail is exactly the first 49 old entries), and
the persisted localStorage string is the serialisation of the in-memory
list. -/
theorem addToHistory_invariants (hist : List HistEntry) (b : HistMeta) (nowIso : String) :
    (addToHistory hist b nowIso).1.length ≤ 50 ∧
    (addToHistory hist b nowIso).1.head? = some { meta := b, date := nowIso } ∧
    (addToHistory hist b nowIso).1.tail = hist.take 49 ∧
    (addToHistory hist b nowIso).2 = encodeHistory (addToHistory hist b nowIso).1 := by
  refine ⟨?_, ?_, ?_, rfl⟩
  · simp [addToHistory]
  · rw [show (addToHistory hist b nowIso).1 =
        (({ meta := b, date := nowIso } : HistEntry) :: hist).take 50 from rfl,
      show (50 : Nat) = 49 + 1 from rfl, List.take_succ_cons]
    rfl
  · rw [show (addToHistory hist b nowIso).1 =
        (({ meta := b, date := nowIso } : HistEntry) :: hist).take 50 from rfl,
      show (50 : Nat) = 49 + 1 from rfl, List.take_succ_cons]
    rfl

/-- Witness for C4 at the concrete sample request. -/
theorem simulate_progress_events_ordered_witness :
    ((simulateRun sampleRequest).1.map fun st => st.stage.idx).Pairwise (· < ·) ∧
    ((simulateRun sampleRequest).1.map fun st => st.progress).Pairwise (· ≤ ·) ∧
    ((simulateRun sampleRequest).1.map fun st => st.stage).Nodup ∧
    (simulateRun sampleRequest).1.length = 7 :=
  simulate_progress_events_ordered sampleRequest

/-- Witness for the amended C7 at the concrete extension `.pdf`. -/
theorem dropzone_accepted_extensions_witness :
    acceptsExtension ".pdf" = true ↔
      ".pdf" ∈ [".pdf", ".doc", ".docx", ".txt", ".png", ".jpg", ".jpeg", ".gif"] :=
  dropzone_accepted_extensions ".pdf"

/-- Witness for C10 at a concrete one-entry history. -/
theorem addToHistory_invariants_witness :
    (addToHistory
        [{ meta := { expert := "Dr. B", strategy := "support", motion_type := "Motion to Qualify Expert Witness",
                     length := 12000, timestamp := "2025-07-21T10:00:00Z" },
           date := "2025-07-21T10:00:01Z" }]
        { expert := "Dr. A", strategy := "challenge", motion_type := "Daubert Motion to Exclude Expert Testimony",
          length := 15000, timestamp := "2025-07-22T10:00:00Z" }
        "2025-07-22T10:00:01Z").1.length ≤ 50 ∧
    (addToHistory
        [{ meta := { expert := "Dr. B", strategy := "support", motion_type := "Motion to Qualify Expert Witness",
                     length := 12000, timestamp := "2025-07-21T10:00:00Z" },
           date := "2025-07-21T10:00:01Z" }]
        { expert := "Dr. A", strategy := "challenge", motion_type := "Daubert Motion to Exclude Expert Testimony",
          length := 15000, timestamp := "2025-07-22T10:00:00Z" }
        "2025-07-22T10:00:01Z").1.head? = some
      { meta := { expert := "Dr. A", strategy := "challenge", motion_type := "Daubert Motion to Exclude Expert Testimony",
                  length := 15000, timestamp := "2025-07-22T10:00:00Z" },
        date := "2025-07-22T10:00:01Z" } ∧
    (addToHistory
        [{ meta := { expert := "Dr. B", strategy := "support", motion_type := "Motion to Qualify Expert Witness",
                     length := 12000, timestamp := "2025-07-21T10:00:00Z" },
           date := "2025-07-21T10:00:01Z" }]
        { expert := "Dr. A", strategy := "challenge", motion_type := "Daubert Motion to Exclude Expert Testimony",
          length := 15000, timestamp := "2025-07-22T10:00:00Z" }
        "2025-07-22T10:00:01Z").1.tail =
      [{ meta := { expert := "Dr. B", strategy := "support", motion_type := "Motion to Qualify Expert Witness",
                   length := 12000, timestamp := "2025-07-21T10:00:00Z" },
         date := "2025-07-21T10:00:01Z" }].take 49 ∧
    (addToHistory
        [{ meta := { expert := "Dr. B", strategy := "support", motion_type := "Motion to Qualify Expert Witness",
                     length := 12000, timestamp := "2025-07-21T10:00:00Z" },
           date := "2025-07-21T10:00:01Z" }]
        { expert := "Dr. A", strategy := "challenge", motion_type := "Daubert Motion to Exclude Expert Testimony",
          length := 15000, timestamp := "2025-07-22T10:00:00Z" }
        "2025-07-22T10:00:01Z").2 = encodeHistory
      (addToHistory
        [{ meta := { expert := "Dr. B", strategy := "support", motion_type := "Motion to Qualify Expert Witness",
                     length := 12000, timestamp := "2025-07-21T10:00:00Z" },
           date := "2025-07-21T10:00:01Z" }]
        { expert := "Dr. A", strategy := "challenge", motion_type := "Daubert Motion to Exclude Expert Testimony",
          length := 15000, timestamp := "2025-07-22T10:00:00Z" }
        "2025-07-22T10:00:01Z").1 :=
  addToHistory_invariants _ _ _

end Lexicon
